import Mathlib

/-!
Shallow embedding of the x-cortex/x-whatsapp Playwright WhatsApp client.

The repository drives WhatsApp Web through a browser page and recovers all
state from the rendered DOM.  The embedding models every DOM query a function
performs as a field of an input structure (the value the query would return:
`Option` for a possibly-absent node, `Option String` for a possibly-missing
attribute), and models each Python function as a pure Lean function over those
inputs.  Exceptions are modelled with `Except`; Python control flow (try,
except clauses, early return, loop state) is translated clause by clause from
the source files `src/x_whatsapp/__init__.py`, `src/src/__init__.py` and
`src/src/newFile.py`.
-/

/-! ## Python exception classes

Only the distinctions the client's `except` clauses can observe are kept.
`pwTimeout` is Playwright's `TimeoutError` (a subclass of playwright's
`Error`, itself a direct subclass of `Exception`); `builtinTimeout` is the
Python builtin `TimeoutError` (a subclass of `OSError`).  The two are
unrelated classes, and the modules import only `Error` from
`playwright.async_api`, so a bare `except TimeoutError:` clause in this code
base refers to the builtin and does not catch Playwright timeouts. -/

inductive PyExc where
  | pwTimeout
  | builtinTimeout
  | assertionError
  | indexError
  | typeError
  | nameError
  | valueError
  | otherError
deriving DecidableEq

/-! ## Python string primitives -/

/-- Python whitespace (`str.strip` default set and regex `\s`), ASCII part. -/
def isPySpace (c : Char) : Bool :=
  c = ' ' || c = '\t' || c = '\n' || c = '\x0d' || c = '\x0b' || c = '\x0c'

/-- Python `s.strip()`. -/
def pyStrip (s : String) : String :=
  String.mk (((s.data.dropWhile isPySpace).reverse.dropWhile isPySpace).reverse)

/-- Python `needle in hay` on strings: substring containment. -/
def pyContains (hay needle : String) : Bool :=
  decide (needle.data <:+: hay.data)

/-- Split leading decimal digits from a character list. -/
def takeDigits : List Char → List Char × List Char
  | [] => ([], [])
  | c :: rest =>
    if c.isDigit then
      let (ds, r) := takeDigits rest
      (c :: ds, r)
    else ([], c :: rest)

/-- Numeric value of a digit string. -/
def digitsToNat (ds : List Char) : Nat :=
  ds.foldl (fun a c => a * 10 + (c.toNat - 48)) 0

/-- A Python float value, kept as the exact decimal it was parsed from:
`num / 10 ^ exp`.  The representation is not normalised; value-level
equality and order are the cross-multiplied `pfBeq`/`pfLE` below. -/
structure PyFloat where
  num : ℤ
  exp : ℕ
deriving DecidableEq

/-- Value equality of two parsed floats. -/
def pfBeq (a b : PyFloat) : Bool :=
  a.num * (10 : ℤ) ^ b.exp == b.num * (10 : ℤ) ^ a.exp

/-- Value order of two parsed floats (denominators are positive powers of
ten, so comparing cross products is comparing the values). -/
def pfLE (a b : PyFloat) : Prop :=
  a.num * (10 : ℤ) ^ b.exp ≤ b.num * (10 : ℤ) ^ a.exp

instance : DecidableRel pfLE := fun a b => inferInstanceAs (Decidable (_ ≤ _))

/-- The exact rational value of a parsed float. -/
def PyFloat.toQ (a : PyFloat) : ℚ :=
  (a.num : ℚ) / (10 : ℚ) ^ a.exp

/-- The cross-multiplied order is the order of the represented values. -/
theorem pfLE_iff_toQ (a b : PyFloat) : pfLE a b ↔ a.toQ ≤ b.toQ := by
  unfold pfLE PyFloat.toQ
  rw [div_le_div_iff (by positivity) (by positivity)]
  constructor
  · intro h
    exact_mod_cast h
  · intro h
    exact_mod_cast h

/-- Python `float(s)` on finite decimal and scientific literals (the forms
`getComputedStyle` matrix components take).  Exotic accepted forms
(`inf`, `nan`, digit-group underscores) are modelled as failures; `none`
models the `ValueError` that `float` raises on an unparsable string. -/
def pyFloatCore (cs0 : List Char) : Option PyFloat :=
  let (neg, cs1) : Bool × List Char :=
    match cs0 with
    | '+' :: r => (false, r)
    | '-' :: r => (true, r)
    | r => (false, r)
  let (ip, cs2) := takeDigits cs1
  let (fp, cs3) :=
    match cs2 with
    | '.' :: r => takeDigits r
    | r => ([], r)
  if ip.isEmpty && fp.isEmpty then none
  else
    let m0 : ℤ := (digitsToNat ip : ℤ) * (10 : ℤ) ^ fp.length + (digitsToNat fp : ℤ)
    let m1 : ℤ := if neg then -m0 else m0
    match cs3 with
    | [] => some ⟨m1, fp.length⟩
    | e :: r =>
      if e = 'e' || e = 'E' then
        let (epos, r2) : Bool × List Char :=
          match r with
          | '+' :: r3 => (true, r3)
          | '-' :: r3 => (false, r3)
          | r3 => (true, r3)
        let (eds, r4) := takeDigits r2
        if eds.isEmpty || !r4.isEmpty then none
        else if epos then some ⟨m1 * (10 : ℤ) ^ digitsToNat eds, fp.length⟩
        else some ⟨m1, fp.length + digitsToNat eds⟩
      else none

/-- Python `float(s)`: surrounding whitespace is allowed. -/
def pyFloat (s : String) : Option PyFloat :=
  pyFloatCore (((s.data.dropWhile isPySpace).reverse.dropWhile isPySpace).reverse)

/-- Python `s.upper()` (the client only feeds it ASCII contact names). -/
def pyUpper (s : String) : String :=
  String.mk (s.data.map Char.toUpper)

/-- Python `s.startswith(pre)`. -/
def pyStartswith (s pre : String) : Bool :=
  pre.data.isPrefixOf s.data

/-- Worker for `pyReplace`: fuel-driven left-to-right scan replacing
non-overlapping occurrences; the fuel is at least the input length, so the
zero-fuel arm is never reached. -/
def pyReplaceAux (old new : List Char) : Nat → List Char → List Char
  | 0, s => s
  | _ + 1, [] => []
  | fuel + 1, c :: rest =>
    if old.isPrefixOf (c :: rest) then
      new ++ pyReplaceAux old new fuel ((c :: rest).drop old.length)
    else c :: pyReplaceAux old new fuel rest

/-- Python `s.replace(old, new)`; an empty `old` interleaves `new` around
every character, as in Python. -/
def pyReplace (s old new : String) : String :=
  if old = "" then
    String.mk (s.data.foldr (fun c acc => new.data ++ c :: acc) new.data)
  else String.mk (pyReplaceAux old.data new.data s.data.length s.data)

/-- Worker for `pySplit`: fuel-driven scan cutting at every occurrence of
the (non-empty) separator. -/
def pySplitAux (sep : List Char) (cur : List Char) :
    Nat → List Char → List (List Char)
  | 0, _ => [cur.reverse]
  | _ + 1, [] => [cur.reverse]
  | fuel + 1, c :: rest =>
    if sep.isPrefixOf (c :: rest) then
      cur.reverse :: pySplitAux sep [] fuel ((c :: rest).drop sep.length)
    else pySplitAux sep (c :: cur) fuel rest

/-- Python `s.split(sep)` for a non-empty separator (both call sites pass
the literal comma-space separator; Python raises on an empty one, which
this model maps to a single piece). -/
def pySplit (s sep : String) : List String :=
  if sep = "" then [s]
  else (pySplitAux sep.data [] s.data.length s.data).map String.mk

/-- Python slice `l[-n:]`.  For `n = 0` the slice degenerates to `l[0:]`,
the whole list; for `n ≥ 1` it is the suffix of length `min n (length l)`. -/
def pySliceLast (l : List α) (n : Nat) : List α :=
  if n = 0 then l else l.drop (l.length - n)

/-! ## The two `data-pre-plain-text` regular expressions

`src/x_whatsapp/__init__.py` and `src/src/newFile.py` both parse the
machine-readable message prefix with lazy-group patterns:

  re.match  with pattern  bracket, lazy group, bracket-space, lazy group,
                          colon, optional whitespace, end of string
  re.search with pattern  bracket, lazy group, bracket-space, lazy group,
                          colon, space

A lazy group `.*?` matches any characters except newline, preferring the
shortest match, with full backtracking; `\s*$` succeeds exactly when the
rest of the string is whitespace (a `$` may also sit before a final
newline, which that newline being whitespace already covers). -/

/-- Continuation of the `re.match` pattern after the second group: succeed at
the first position whose character is a colon with only whitespace after it;
the group itself may not cross a newline. -/
def g2ColonWs (acc : List Char) : List Char → Option String
  | [] => none
  | c :: rest =>
    if c = ':' && rest.all isPySpace then some (String.mk acc.reverse)
    else if c = '\n' then none
    else g2ColonWs (c :: acc) rest

/-- Continuation of the `re.search` pattern after the second group: succeed at
the first colon that is immediately followed by a space. -/
def g2ColonSpace (acc : List Char) : List Char → Option String
  | [] => none
  | c :: rest =>
    if c = ':' && (match rest with | ' ' :: _ => true | _ => false) then
      some (String.mk acc.reverse)
    else if c = '\n' then none
    else g2ColonSpace (c :: acc) rest

/-- First lazy group: scan for a closing bracket followed by a space such
that the continuation `g2` succeeds on the remainder; on failure of the
continuation the bracket is re-absorbed into the group (backtracking).
The group may not cross a newline. -/
def g1Bracket (g2 : List Char → Option String) (acc : List Char) :
    List Char → Option (String × String)
  | [] => none
  | ']' :: rest =>
    (match rest with
     | ' ' :: rest2 =>
       match g2 rest2 with
       | some grp2 => some (String.mk acc.reverse, grp2)
       | none => g1Bracket g2 (']' :: acc) rest
     | _ => g1Bracket g2 (']' :: acc) rest)
  | '\n' :: _ => none
  | c :: rest => g1Bracket g2 (c :: acc) rest

/-- `re.match` of the anchored prefix pattern against `s`; returns the two
captured groups (time text, sender text). -/
def reMatchPrePlain (s : String) : Option (String × String) :=
  match s.data with
  | '[' :: rest => g1Bracket (g2ColonWs []) [] rest
  | _ => none

/-- Scanning worker for `re.search`: try the pattern at every position. -/
def reSearchAux : List Char → Option (String × String)
  | [] => none
  | '[' :: rest =>
    (match g1Bracket (g2ColonSpace []) [] rest with
     | some r => some r
     | none => reSearchAux rest)
  | _ :: rest => reSearchAux rest

/-- `re.search` of the unanchored prefix pattern against `s`. -/
def reSearchPrePlain (s : String) : Option (String × String) :=
  reSearchAux s.data

/-! ## src/x_whatsapp/__init__.py — message row parsing

`extract_basic_info` in `src/x_whatsapp/__init__.py` (lines 429-473) and in
`src/src/__init__.py` (lines 358-402) are textually identical; one embedding
covers both.  A `Row` records what each DOM query performed by the function
would return on that row. -/

namespace XWhatsapp

/-- One `div[role='row']` node, as seen through the queries of
`extract_basic_info`, the attachment-icon check of `extract_messages`, and
`extract_attachment_info`. -/
structure Row where
  /-- inner text of `span.selectable-text.copyable-text`, when present -/
  messageSpan : Option String
  /-- `div._amk6._amlo div.copyable-text` node when present; the inner
  `Option String` is its `data-pre-plain-text` attribute -/
  copyableDiv : Option (Option String)
  /-- inner text of the styled sender span, when present -/
  senderSpan : Option String
  /-- inner text of the styled time span, when present -/
  timeSpan : Option String
  /-- a `div.message-out` node is present -/
  messageOut : Bool
  /-- one of the attachment icon divs is present -/
  attachmentIcon : Bool
  /-- `div[title^="Download"]` node when present; the inner `Option String`
  is the inner text of its `span.selectable-text` child when that exists -/
  downloadDiv : Option (Option String)
  /-- `title` attribute of the PDF/Image/Document type span, when present -/
  typeSpanTitle : Option String
  /-- `title` attribute of the kB/MB size span, when present -/
  sizeSpanTitle : Option String
  /-- `title` attribute of the pages span, when present -/
  pagesSpanTitle : Option String
deriving DecidableEq

/-- The dictionary `extract_basic_info` builds. -/
structure MsgInfo where
  message : String
  time : String
  sender : String
deriving DecidableEq

/-- Final sender fixup of `extract_basic_info`: a `div.message-out` row is
forced to "You"; otherwise a still-unknown sender becomes the placeholder. -/
def finishSender (row : Row) (s : String) : String :=
  if row.messageOut then "You"
  else if s = "unknown" then "Sender"
  else s

/-- `extract_basic_info(row)`.  When the copyable-text node exists but its
`data-pre-plain-text` attribute is absent, `re.match(pattern, None)` raises
`TypeError` (the function has no handler); that is the only failing path. -/
def extract_basic_info (row : Row) : Except PyExc MsgInfo :=
  let msg : String :=
    match row.messageSpan with
    | some t => pyStrip t
    | none => "unknown"
  match row.copyableDiv with
  | some none => .error .typeError
  | some (some pre) =>
    let (tm, sd) :=
      match reMatchPrePlain pre with
      | some (g1, g2) => (pyStrip g1, pyStrip g2)
      | none => ("unknown", "unknown")
    .ok ⟨msg, tm, finishSender row sd⟩
  | none =>
    let sd : String :=
      match row.senderSpan with
      | some t => pyStrip t
      | none => "unknown"
    let tm : String :=
      match row.timeSpan with
      | some t => pyStrip t
      | none => "unknown"
    .ok ⟨msg, tm, finishSender row sd⟩

/-- The dictionary `extract_attachment_info` builds once the download
affordance exists; every missing sub-element leaves `None` in the field. -/
structure AttachmentDetails where
  name : Option String
  type : Option String
  size : Option String
  otherdetails : Option String
deriving DecidableEq

/-- `extract_attachment_info(row)`: `none` models the empty dictionary
returned when no `div[title^="Download"]` is present. -/
def extract_attachment_info (row : Row) : Option AttachmentDetails :=
  match row.downloadDiv with
  | none => none
  | some nameSpan =>
    some ⟨nameSpan, row.typeSpanTitle, row.sizeSpanTitle, row.pagesSpanTitle⟩

/-- The `attachment` entry of a parsed message: the empty string when the row
carries no attachment icon, otherwise the extracted details dictionary. -/
inductive AttachmentField where
  | emptyStr
  | details (d : Option AttachmentDetails)
deriving DecidableEq

/-- A fully parsed message as produced by `process_row` inside
`extract_messages`. -/
structure Msg where
  info : MsgInfo
  attachment : AttachmentField
deriving DecidableEq

/-- `process_row` inside `extract_messages`: any exception is caught and the
row contributes `None`, which the caller filters out. -/
def process_row (row : Row) : Option Msg :=
  match extract_basic_info row with
  | .error _ => none
  | .ok obj =>
    some ⟨obj, if row.attachmentIcon
               then .details (extract_attachment_info row)
               else .emptyStr⟩

/-- `extract_messages()`: every row of the open panel, in DOM (chronological)
order; rows whose parse raised are omitted.  The `asyncio.gather` fan-out
preserves input order, so the result order is the row order. -/
def extract_messages (rows : List Row) : List Msg :=
  rows.filterMap process_row

/-- `extract_messages_from_chat(n, name)`: opens the panel (the returned name
is not checked) and slices the extraction with Python `[-n:]`. -/
def extract_messages_from_chat (n : Nat) (rows : List Row) : List Msg :=
  pySliceLast (extract_messages rows) n

end XWhatsapp

/-! ## src/src/newFile.py — row parsing and chat history -/

namespace NewFile

/-- The `div.message-in, div.message-out` container of a row in
`parse_whatsapp_messages`, with the queries performed on it. -/
structure NFContainer where
  /-- its `class` attribute -/
  classAttr : Option String
  /-- `div._amk6._amlo div.copyable-text` node when present; the inner
  `Option String` is its `data-pre-plain-text` attribute -/
  copyable : Option (Option String)
  /-- inner text of `span.selectable-text.copyable-text`, when present -/
  messageSpan : Option String
deriving DecidableEq

/-- One `div[role='row']` node as seen by `parse_whatsapp_messages`. -/
structure NFRow where
  container : Option NFContainer
deriving DecidableEq

/-- A message dictionary built by `parse_whatsapp_messages`. -/
structure NFMsg where
  sender : String
  time_sent : String
  message : String
deriving DecidableEq

/-- The loop-carried locals of `parse_whatsapp_messages`: `time_sent` and
`message_text` are only assigned inside conditionals, so a value from an
earlier row iteration persists and an unassigned name raises at the
dictionary construction (caught, row skipped). -/
structure NFState where
  time_sent : Option String
  message_text : Option String
deriving DecidableEq

/-- One iteration of the row loop in `parse_whatsapp_messages`: the failed
`assert`s and the unbound-local error are all caught by the per-row
`except`, producing no message but keeping any locals assigned so far. -/
def parseRowStep (st : NFState) (r : NFRow) : NFState × Option NFMsg :=
  match r.container with
  | none => (st, none)
  | some mc =>
    match mc.classAttr with
    | none => (st, none)
    | some cls =>
      let sender0 : String := if pyContains cls "message-out" then "You" else "Sender"
      match mc.copyable with
      | none => (st, none)
      | some none => (st, none)
      | some (some pre) =>
        let (st1, sender) :=
          match reMatchPrePlain pre with
          | some (g1, g2) =>
            ({ st with time_sent := some (pyStrip g1) },
             if sender0 ≠ "You" then pyStrip g2 else sender0)
          | none => (st, sender0)
        let st2 :=
          match mc.messageSpan with
          | some mt => { st1 with message_text := some (pyStrip mt) }
          | none => st1
        match st2.time_sent, st2.message_text with
        | some t, some m => (st2, some ⟨sender, t, m⟩)
        | _, _ => (st2, none)

/-- Worker of `parse_whatsapp_messages` over the row list. -/
def parseRows (st : NFState) : List NFRow → List NFMsg
  | [] => []
  | r :: rest =>
    match parseRowStep st r with
    | (st2, some m) => m :: parseRows st2 rest
    | (st2, none) => parseRows st2 rest

/-- `parse_whatsapp_messages()` over the rows of the open panel. -/
def parse_whatsapp_messages (rows : List NFRow) : List NFMsg :=
  parseRows ⟨none, none⟩ rows

/-- One `div[role='row']` node as seen by `getChatHistory`. -/
structure GCRow where
  /-- `.copyable-text` node when present; the inner `Option String` is its
  `data-pre-plain-text` attribute -/
  copyText : Option (Option String)
  /-- `.copyable-text span` node inner text, when the node is present -/
  messageSpan : Option String
deriving DecidableEq

/-- A formatted message as appended by `getChatHistory`. -/
structure FormattedChat where
  name : String
  time : String
  message : String
deriving DecidableEq

/-- The per-row body of the formatting loop of `getChatHistory`: skip when
the copyable node is missing, when the message span is missing, when the
attribute is missing or empty (both falsy), or when the search pattern does
not occur; otherwise emit name, time and message text. -/
def gcFormat (r : GCRow) : Option FormattedChat :=
  match r.copyText with
  | none => none
  | some attr =>
    match r.messageSpan, attr with
    | some mtext, some pre =>
      if pre = "" then none
      else
        match reSearchPrePlain pre with
        | some (t, nm) => some ⟨nm, t, mtext⟩
        | none => none
    | _, _ => none

/-- `getChatHistory(n)`: raises when the application pane is missing or when
the panel has no rows; otherwise formats the first `n` rows of the reversed
row list — but only when at least `n` rows exist, returning the empty list
otherwise. -/
def getChatHistory (mainDiv : Option (List GCRow)) (n : Nat) :
    Except PyExc (List FormattedChat) :=
  match mainDiv with
  | none => .error .pwTimeout
  | some chats =>
    if chats.isEmpty then .error .otherError
    else if n ≤ chats.length then .ok ((chats.reverse.take n).filterMap gcFormat)
    else .ok []

end NewFile

/-! ## src/x_whatsapp/__init__.py — chat-list synchronizer -/

namespace XWhatsapp

/-- The Python value held by the `translate_y` variable when a side-pane item
is appended: a float (or the int `0` of the `translateY(0px)` branch), the
unparsed transform string, or `None` when the style lookup returned null. -/
inductive TKey where
  | num (q : PyFloat)
  | str (s : String)
  | pynone
deriving DecidableEq

/-- One `div[role='listitem']` of the sidebar chat list, as seen through the
queries of `extract_chat_details_from_side_pane`.  The time element is
queried with the same selector as the name element (`span[dir="auto"]` on
the item), so both read the same node. -/
structure SideChat where
  /-- inner text of the first `span[dir="auto"]`, when present -/
  nameSpan : Option String
  /-- computed-style `transform` string; `none` models a null result -/
  transform : Option String
  /-- inner text of the recent-message span, when present -/
  recentMessageSpan : Option String
  /-- inner text of `span[aria-label*="unread"]`, when present -/
  unreadLabel : Option String
deriving DecidableEq

/-- A chat dictionary appended to `all_chats`. -/
structure SideEntry where
  name : String
  recent_message : String
  time : String
  unread_messages : String
  translate_y : TKey
deriving DecidableEq

/-- The `translate_y` parsing block of the loop body: a falsy transform is
stored as-is; a string containing "matrix" is split and its sixth component
passed to `float` (whose `ValueError` is the one exception this block can
raise); a string containing "translateY(0px)" becomes the int `0`; any other
string stays a string. -/
def keyOf (c : SideChat) : Except PyExc TKey :=
  match c.transform with
  | none => .ok .pynone
  | some s =>
    if s = "" then .ok (.str "")
    else if pyContains s "matrix" then
      let parts := pySplit (pyReplace (pyReplace s "matrix(" "") ")" "") ", "
      if parts.length = 6 then
        match pyFloat (parts.getD 5 "") with
        | some q => .ok (.num q)
        | none => .error .valueError
      else .ok (.str s)
    else if pyContains s "translateY(0px)" then .ok (.num ⟨0, 0⟩)
    else .ok (.str s)

/-- The dictionary appended for one side-pane item: the defaults are the
literals of the source, and the time field reads the same node as the name
field (same selector). -/
def mkEntry (c : SideChat) (k : TKey) : SideEntry where
  name := c.nameSpan.getD "Unknown"
  recent_message := c.recentMessageSpan.getD "No recent message"
  time := c.nameSpan.getD "No time available"
  unread_messages := c.unreadLabel.getD "0"
  translate_y := k

/-- Is the key a Python number (int or float)? -/
def TKey.isNum : TKey → Bool
  | .num _ => true
  | _ => false

/-- Is the key a Python string? -/
def TKey.isStr : TKey → Bool
  | .str _ => true
  | _ => false

/-- Numeric sort key of an entry; total with junk value `0` off the numeric
case, used only under an all-numeric guard. -/
def entryKeyQ (e : SideEntry) : PyFloat :=
  match e.translate_y with
  | .num q => q
  | _ => ⟨0, 0⟩

/-- String sort key of an entry; junk value off the string case. -/
def entryKeyS (e : SideEntry) : String :=
  match e.translate_y with
  | .str s => s
  | _ => ""

/-- Order used for an all-numeric key list. -/
def entryLeQ (a b : SideEntry) : Prop :=
  pfLE (entryKeyQ a) (entryKeyQ b)

instance : DecidableRel entryLeQ := fun a b => inferInstanceAs (Decidable (pfLE _ _))

instance : IsTotal SideEntry entryLeQ :=
  ⟨fun a b => by
    unfold entryLeQ
    rw [pfLE_iff_toQ, pfLE_iff_toQ]
    exact le_total _ _⟩

instance : IsTrans SideEntry entryLeQ :=
  ⟨fun a b c hab hbc => by
    unfold entryLeQ at *
    rw [pfLE_iff_toQ] at *
    exact le_trans hab hbc⟩

/-- Order used for an all-string key list (Python compares strings by code
point; `a ≤ b` is the negation of `b < a`). -/
def entryLeS (a b : SideEntry) : Prop :=
  ¬ entryKeyS b < entryKeyS a

instance : DecidableRel entryLeS := fun a b => inferInstanceAs (Decidable (¬ _ < _))

/-- CPython `list.sort(key=...)` on the heterogeneous `translate_y` keys:
a list of at most one element sorts without comparing; an all-number or
all-string key list sorts stably ascending; any other combination raises
`TypeError` on the first cross-type comparison.  In the loop below every
failing sort is an already-sorted list with one freshly appended element,
and CPython raises on the first comparison against that new element, before
moving anything, so the caller sees the pre-sort list unchanged. -/
def pysortEntries (l : List SideEntry) : Option (List SideEntry) :=
  if l.length ≤ 1 then some l
  else if l.all (fun e => e.translate_y.isNum) then some (l.insertionSort entryLeQ)
  else if l.all (fun e => e.translate_y.isStr) then some (l.insertionSort entryLeS)
  else none

/-- The item loop of `extract_chat_details_from_side_pane`, carrying
`all_chats`.  The list is re-sorted after every append (as in the source);
a `ValueError` from `float` or a `TypeError` from the sort is caught by the
surrounding handler, which abandons the loop and falls through to
`return all_chats`. -/
def sidePaneGo : List SideChat → List SideEntry → List SideEntry
  | [], acc => acc
  | c :: rest, acc =>
    match keyOf c with
    | .error _ => acc
    | .ok k =>
      let acc2 := acc ++ [mkEntry c k]
      match pysortEntries acc2 with
      | none => acc2
      | some sorted => sidePaneGo rest sorted

/-- `extract_chat_details_from_side_pane()`: the `assert` on the chat-list
container sits before the `try`, so its failure propagates; everything else
returns the accumulated list. -/
def extract_chat_details_from_side_pane (chatListDiv : Option (List SideChat)) :
    Except PyExc (List SideEntry) :=
  match chatListDiv with
  | none => .error .assertionError
  | some children => .ok (sidePaneGo children [])

/-- `fetch_latest_message()` indexes the first summary; an empty sidebar
raises `IndexError`. -/
def fetch_latest_message (chatListDiv : Option (List SideChat)) :
    Except PyExc SideEntry :=
  match extract_chat_details_from_side_pane chatListDiv with
  | .error e => .error e
  | .ok [] => .error .indexError
  | .ok (e :: _) => .ok e

/-- The `while True` loop of `on_new_message`, run over a finite trace of
per-tick sidebar states (the callback is modelled as total).  The loop body
has no exception handler, so the first failing tick propagates and ends the
loop; exhausting the trace models the loop still running, and returns the
`messages` list accumulated so far. -/
def on_new_message_run :
    List (Option (List SideChat)) → List SideEntry → Except PyExc (List SideEntry)
  | [], seen => .ok seen
  | t :: rest, seen =>
    match fetch_latest_message t with
    | .error e => .error e
    | .ok m =>
      if m ∈ seen then on_new_message_run rest seen
      else on_new_message_run rest (seen ++ [m])

end XWhatsapp

/-! ## src/x_whatsapp/__init__.py — navigation engine -/

namespace XWhatsapp

/-- One search-result `div[role='listitem']` as seen by `find_user`. -/
structure SearchChat where
  /-- inner text of `span[dir="auto"]`, when present -/
  nameSpan : Option String
  /-- computed-style `transform` string; `none` models a null result -/
  transform : Option String
deriving DecidableEq

/-- The result-row loop of `find_user`: keeps the name of the last row whose
transform is a six-component matrix with vertical offset exactly 72; a
`ValueError` from `float` escapes the loop (caught by the function's
catch-all). -/
def find_user_loop : List SearchChat → Option String → Except PyExc (Option String)
  | [], acc => .ok acc
  | c :: rest, acc =>
    let nm := c.nameSpan.getD "Unknown"
    match c.transform with
    | none => find_user_loop rest acc
    | some s =>
      if s = "" then find_user_loop rest acc
      else if !pyContains s "matrix" then find_user_loop rest acc
      else
        let parts := pySplit (pyReplace (pyReplace s "matrix(" "") ")" "") ", "
        if parts.length = 6 then
          match pyFloat (parts.getD 5 "") with
          | none => .error .valueError
          | some q =>
            if !pfBeq q ⟨72, 0⟩ then find_user_loop rest acc
            else find_user_loop rest (some nm)
        else find_user_loop rest acc

/-- `find_user(username)`: the trailing `except Exception` makes every
failure — missing results container (`AssertionError`), Playwright timeout,
`ValueError` — resolve to `False`; a found name is returned only when it is
truthy and a case-insensitive extension of the query. -/
def find_user (chatListDiv : Option (List SearchChat)) (username : String) :
    String ⊕ Bool :=
  match chatListDiv with
  | none => .inr false
  | some children =>
    match find_user_loop children none with
    | .error _ => .inr false
    | .ok none => .inr false
    | .ok (some cn) =>
      if cn ≠ "" && pyStartswith (pyUpper cn) (pyUpper username) then .inl cn
      else .inr false

/-- `open_chat_panel(username)`.  The `try` covers the search-box
interaction and the header-name wait; its only handler is
`except TimeoutError:`, the Python builtin, which does not catch
Playwright's `TimeoutError` (only `Error` is imported from
`playwright.async_api`), so a Playwright timeout propagates to the caller. -/
def open_chat_panel (searchSteps : Except PyExc Unit)
    (headerInner : Except PyExc String) : Except PyExc (String ⊕ Bool) :=
  match searchSteps with
  | .error e => if e = .builtinTimeout then .ok (.inr false) else .error e
  | .ok _ =>
    match headerInner with
    | .error e => if e = .builtinTimeout then .ok (.inr false) else .error e
    | .ok chat_name =>
      if chat_name ≠ "" then .ok (.inl chat_name) else .ok (.inr false)

/-- Outcome of one `page.goto` + `wait_for_load_state` navigation attempt in
`find_user_phone` (identical in `src/x_whatsapp/__init__.py` and
`src/src/newFile.py` and `src/src/__init__.py`). -/
inductive NavOutcome where
  | success
  | caughtTimeout
  | pwTimeoutRaised
deriving DecidableEq

/-- What a `find_user_phone` call chain does. -/
inductive PhoneResult where
  | done (attempts : Nat)
  | raised (attempts : Nat) (e : PyExc)
  | stillRetrying
deriving DecidableEq

/-- `find_user_phone(mobile)` over a trace of attempt outcomes: its
`except TimeoutError` clause retries by calling itself, unconditionally and
with no counter, so every caught timeout adds one more attempt; an uncaught
exception (a Playwright timeout, per the import analysis above) propagates
after the current attempt; exhausting the trace while every attempt timed
out models the unbounded recursion still running. -/
def find_user_phone_run : List NavOutcome → PhoneResult
  | [] => .stillRetrying
  | .success :: _ => .done 1
  | .pwTimeoutRaised :: _ => .raised 1 .pwTimeout
  | .caughtTimeout :: rest =>
    match find_user_phone_run rest with
    | .done k => .done (k + 1)
    | .raised k e => .raised (k + 1) e
    | .stillRetrying => .stillRetrying

end XWhatsapp

/-! ## Scroll loaders -/

/-- A bounding box as returned by `locator.bounding_box()`. -/
structure BBox where
  x : ℚ
  y : ℚ
  width : ℚ
  height : ℚ
deriving DecidableEq

/-- Result of a convergence-driven scroll loop. -/
inductive ScrollResult where
  | noPane
  | converged (iters : Nat)
  | stillScrolling (iters : Nat)
deriving DecidableEq

/-- Wheel events dispatched: one per loop iteration, none when the pane was
not located. -/
def wheelEvents : ScrollResult → Nat
  | .noPane => 0
  | .converged k => k
  | .stillScrolling k => k

/-- The convergence loop shared by the scroll loaders: each iteration
dispatches one wheel event and samples the metric; the loop breaks when the
new sample equals the previous one.  `some k` means the loop broke after `k`
iterations; `none` means the trace ran out with the loop still going. -/
def scrollConverge (prev : Int) : List Int → Option Nat
  | [] => none
  | cur :: rest =>
    if cur = prev then some 1
    else (scrollConverge cur rest).map (· + 1)

namespace XWhatsapp

/-- `search_pane_scroll_down()` from `src/x_whatsapp/__init__.py`: a missing
bounding box logs and returns before any scrolling; otherwise the loop
samples `scrollHeight` after each wheel event until two consecutive samples
agree.  The surrounding `except Exception` keeps any failure inside. -/
def search_pane_scroll_down (box : Option BBox) (h0 : Int) (hs : List Int) :
    ScrollResult :=
  match box with
  | none => .noPane
  | some _ =>
    match scrollConverge h0 hs with
    | some k => .converged k
    | none => .stillScrolling hs.length

end XWhatsapp

namespace SrcInit

/-- `chat_pane_scroll_up()` from `src/src/__init__.py`: same shape as the
search-pane loader, but the convergence metric is `scrollTop`. -/
def chat_pane_scroll_up (box : Option BBox) (top0 : Int) (tops : List Int) :
    ScrollResult :=
  match box with
  | none => .noPane
  | some _ =>
    match scrollConverge top0 tops with
    | some k => .converged k
    | none => .stillScrolling tops.length

end SrcInit

/-! ## Concrete fixtures used by witnesses and counterexamples -/

/-- A row with no recognised sender substructure (for example a
day-separator): no prefix node, no styled sender span, no outgoing marker. -/
def dayMarkerRow : XWhatsapp.Row :=
  ⟨none, none, none, some "9:00", false, false, none, none, none, none⟩

/-- An outgoing row whose machine-readable prefix names somebody else. -/
def outgoingRow : XWhatsapp.Row :=
  ⟨some "hi", some (some "[10:00] Alice: "), none, none, true, false, none, none, none, none⟩

/-- The same outgoing row as `parse_whatsapp_messages` sees it. -/
def nfOutgoingRow : NewFile.NFRow :=
  ⟨some ⟨some "message-out focusable-list-item", some (some "[10:00] Alice: "), some "hi"⟩⟩

/-- Older of two history rows (chronologically first in the DOM). -/
def histRowOld : NewFile.GCRow := ⟨some (some "[10:00] Alice: "), some "first"⟩

/-- Newer of two history rows. -/
def histRowNew : NewFile.GCRow := ⟨some (some "[11:00] Bob: "), some "second"⟩

/-- A sidebar item whose computed transform is the string "none": no matrix,
no `translateY(0px)`, so its `translate_y` stays a string. -/
def badTransformChat : XWhatsapp.SideChat := ⟨some "Bad", some "none", some "m", none⟩

/-- A sidebar item at vertical offset 144. -/
def chat144 : XWhatsapp.SideChat :=
  ⟨some "C144", some "matrix(1, 0, 0, 1, 0, 144)", some "m", none⟩

/-- A sidebar item at vertical offset 72. -/
def chat72 : XWhatsapp.SideChat :=
  ⟨some "C72", some "matrix(1, 0, 0, 1, 0, 72)", some "m", none⟩

/-- A sidebar item whose unread label carries non-numeric text. -/
def unreadChat : XWhatsapp.SideChat :=
  ⟨some "U", some "matrix(1, 0, 0, 1, 0, 72)", some "m", some "abc"⟩

/-! ## C2 -/

/-- C2: for every row lacking the structured prefix node, the styled sender
node and the outgoing marker, `extract_basic_info` succeeds and its sender
field is the fixed placeholder "Sender" (a total `String`, never null). -/
theorem sender_placeholder_when_no_structure (row : XWhatsapp.Row)
    (h1 : row.copyableDiv = none) (h2 : row.senderSpan = none)
    (h3 : row.messageOut = false) :
    ∃ m, XWhatsapp.extract_basic_info row = .ok m ∧ m.sender = "Sender" := by
  unfold XWhatsapp.extract_basic_info
  rw [h1, h2]
  refine ⟨_, rfl, ?_⟩
  simp [XWhatsapp.finishSender, h3]

/-- Witness for C2 at the day-marker fixture. -/
theorem sender_placeholder_when_no_structure_witness :
    dayMarkerRow.copyableDiv = none ∧ dayMarkerRow.senderSpan = none ∧
      dayMarkerRow.messageOut = false ∧
      ∃ m, XWhatsapp.extract_basic_info dayMarkerRow = .ok m ∧ m.sender = "Sender" :=
  ⟨rfl, rfl, rfl, sender_placeholder_when_no_structure dayMarkerRow rfl rfl rfl⟩

/-! ## C3 -/

/-- C3: a row carrying the `div.message-out` marker parses with sender "You"
whatever other sender text the row holds — in `extract_basic_info` (the
final override) and in the row loop of `parse_whatsapp_messages` (the
structured prefix only replaces a sender that is not already "You"). -/
theorem outgoing_marker_forces_sender_you :
    (∀ (row : XWhatsapp.Row) (m : XWhatsapp.MsgInfo), row.messageOut = true →
      XWhatsapp.extract_basic_info row = .ok m → m.sender = "You") ∧
    (∀ (st : NewFile.NFState) (r : NewFile.NFRow) (mc : NewFile.NFContainer)
      (cls : String) (msg : NewFile.NFMsg),
      r.container = some mc → mc.classAttr = some cls →
      pyContains cls "message-out" = true →
      (NewFile.parseRowStep st r).2 = some msg → msg.sender = "You") := by
  constructor
  · intro row m hout hok
    unfold XWhatsapp.extract_basic_info at hok
    match hcd : row.copyableDiv with
    | some none => rw [hcd] at hok; cases hok
    | some (some pre) =>
      rw [hcd] at hok
      cases hok
      simp [XWhatsapp.finishSender, hout]
    | none =>
      rw [hcd] at hok
      cases hok
      simp [XWhatsapp.finishSender, hout]
  · intro st r mc cls msg hc hcls hmo hs
    obtain ⟨cont⟩ := r
    cases hc
    obtain ⟨ca, cp, ms⟩ := mc
    cases hcls
    unfold NewFile.parseRowStep at hs
    simp only [hmo, if_true] at hs
    match cp with
    | none => cases hs
    | some none => cases hs
    | some (some pre) =>
      dsimp only at hs
      match hre : reMatchPrePlain pre with
      | some (g1, g2) =>
        rw [hre] at hs
        simp only [ne_eq, not_true_eq_false, if_false, reduceIte] at hs
        split at hs
        · cases hs; rfl
        · cases hs
      | none =>
        rw [hre] at hs
        split at hs
        · cases hs; rfl
        · cases hs

/-- Witness for C3 at outgoing fixtures naming "Alice" in the prefix. -/
theorem outgoing_marker_forces_sender_you_witness :
    outgoingRow.messageOut = true ∧
    (∃ m, XWhatsapp.extract_basic_info outgoingRow = .ok m ∧ m.sender = "You") ∧
    (∃ msg, (NewFile.parseRowStep ⟨none, none⟩ nfOutgoingRow).2 = some msg ∧
      msg.sender = "You") :=
  ⟨rfl,
   ⟨⟨"hi", "10:00", "You"⟩, rfl,
    outgoing_marker_forces_sender_you.1 outgoingRow ⟨"hi", "10:00", "You"⟩ rfl rfl⟩,
   ⟨⟨"You", "10:00", "hi"⟩, by decide,
    outgoing_marker_forces_sender_you.2 ⟨none, none⟩ nfOutgoingRow
      ⟨some "message-out focusable-list-item", some (some "[10:00] Alice: "), some "hi"⟩
      "message-out focusable-list-item" ⟨"You", "10:00", "hi"⟩ rfl rfl (by decide)
      (by decide)⟩⟩

/-! ## C4 -/

/-- C4 counterexample: one tick against an empty sidebar raises `IndexError`
inside `fetch_latest_message` and, with no handler in the `while True` body
of `on_new_message`, the exception terminates the loop instead of being
caught and logged. -/
theorem poller_empty_sidebar_kills_loop :
    XWhatsapp.on_new_message_run [some []] [] = .error .indexError := rfl

/-- C4 (amended): the polling loop of `on_new_message` has no per-tick
exception handler: it keeps running exactly as long as every tick's
`fetch_latest_message` succeeds, and the first failing tick (missing chat
list, or empty sidebar) terminates it with that exception. -/
theorem poller_survives_iff_all_ticks_ok
    (trace : List (Option (List XWhatsapp.SideChat)))
    (seen : List XWhatsapp.SideEntry) :
    (XWhatsapp.on_new_message_run trace seen).isOk =
      trace.all (fun t => (XWhatsapp.fetch_latest_message t).isOk) := by
  induction trace generalizing seen with
  | nil => rfl
  | cons t rest ih =>
    unfold XWhatsapp.on_new_message_run
    rw [List.all_cons]
    match hf : XWhatsapp.fetch_latest_message t with
    | .error e => simp [Except.isOk, Except.toBool]
    | .ok m =>
      dsimp only
      by_cases hm : m ∈ seen
      · rw [if_pos hm, ih]
        simp [Except.isOk, Except.toBool]
      · rw [if_neg hm, ih]
        simp [Except.isOk, Except.toBool]

/-! ## C5 -/

/-- C5 counterexample: two caught timeouts followed by a success make
`find_user_phone` navigate three times — more than the "at most one
additional attempt" the claim allows. -/
theorem phone_retry_three_attempts :
    XWhatsapp.find_user_phone_run [.caughtTimeout, .caughtTimeout, .success] =
      .done 3 ∧ ¬ (3 ≤ 2) :=
  ⟨rfl, by decide⟩

/-- C5 (amended): the retry of `find_user_phone` is an unconditional
recursive call with no counter: after `n` caught timeouts a success
completes on attempt `n + 1`, a trace of caught timeouts only keeps
retrying, and an uncaught exception (a Playwright timeout, which the
builtin-`TimeoutError` clause does not catch) propagates after a single
attempt. -/
theorem phone_retry_unbounded (n : Nat) :
    (∀ rest, XWhatsapp.find_user_phone_run
        (List.replicate n .caughtTimeout ++ .success :: rest) = .done (n + 1)) ∧
    XWhatsapp.find_user_phone_run (List.replicate n .caughtTimeout) =
      .stillRetrying ∧
    (∀ rest, XWhatsapp.find_user_phone_run (.pwTimeoutRaised :: rest) =
      .raised 1 .pwTimeout) := by
  refine ⟨?_, ?_, fun rest => rfl⟩
  · intro rest
    induction n with
    | zero => rfl
    | succ k ih =>
      rw [List.replicate_succ, List.cons_append]
      unfold XWhatsapp.find_user_phone_run
      rw [ih]
  · induction n with
    | zero => rfl
    | succ k ih =>
      rw [List.replicate_succ]
      unfold XWhatsapp.find_user_phone_run
      rw [ih]

/-! ## C8 -/

/-- C8: evaluation at the failing input.  A Playwright `TimeoutError` from
the header-name wait propagates out of `open_chat_panel` (its handler names
the builtin `TimeoutError`, a different class), while `find_user`, whose
trailing `except Exception` is a genuine catch-all, resolves its failures
to `False`; a builtin timeout would have been caught. -/
theorem open_chat_panel_timeout_propagates :
    XWhatsapp.open_chat_panel (.ok ()) (.error .pwTimeout) = .error .pwTimeout ∧
    XWhatsapp.find_user none "Alice" = .inr false ∧
    XWhatsapp.open_chat_panel (.ok ()) (.error .builtinTimeout) = .ok (.inr false) :=
  ⟨rfl, rfl, rfl⟩

/-! ## C10 -/

/-- C10: when `n` exceeds the number of rows of a non-empty panel,
`getChatHistory` returns the empty list — the formatting loop only runs
under the guard that at least `n` rows exist. -/
theorem getChatHistory_empty_when_n_exceeds_rows
    (rows : List NewFile.GCRow) (n : Nat)
    (h1 : rows ≠ []) (h2 : rows.length < n) :
    NewFile.getChatHistory (some rows) n = .ok [] := by
  unfold NewFile.getChatHistory
  dsimp only
  rw [if_neg (by simp [h1]), if_neg (by omega)]

/-- Witness for C10: a two-row panel asked for three messages. -/
theorem getChatHistory_empty_when_n_exceeds_rows_witness :
    [histRowOld, histRowNew] ≠ ([] : List NewFile.GCRow) ∧
    [histRowOld, histRowNew].length < 3 ∧
    NewFile.getChatHistory (some [histRowOld, histRowNew]) 3 = .ok [] :=
  ⟨by decide, by decide,
   getChatHistory_empty_when_n_exceeds_rows [histRowOld, histRowNew] 3
     (by decide) (by decide)⟩

/-! ## C9 -/

/-- The convergence loop breaks at the first adjacent repeat of the sample
sequence: if the samples seen (starting from the pre-loop sample) are
`pre ++ [x, x, ...]` with no adjacent repeat inside `pre ++ [x]`, the loop
runs exactly `pre.length + 1` iterations. -/
theorem scrollConverge_first_repeat (x : Int) (tail : List Int) :
    ∀ (pre : List Int) (prev : Int) (hs : List Int),
      List.Chain' (· ≠ ·) (pre ++ [x]) →
      prev :: hs = pre ++ x :: x :: tail →
      scrollConverge prev hs = some (pre.length + 1)
  | [], prev, hs, _, heq => by
    injection heq with e1 e2
    subst e1
    subst e2
    simp [scrollConverge]
  | p :: pre2, prev, hs, hch, heq => by
    injection heq with e1 e2
    subst e1
    subst e2
    match pre2, hch with
    | [], hch =>
      have hpx : prev ≠ x := (List.chain'_cons.mp hch).1
      show scrollConverge prev (x :: x :: tail) = some 2
      unfold scrollConverge
      rw [if_neg (fun h => hpx h.symm)]
      simp [scrollConverge]
    | q :: pre3, hch =>
      have hch2 : (prev ≠ q) ∧ List.Chain' (· ≠ ·) ((q :: pre3) ++ [x]) := by
        simp only [List.cons_append] at hch
        rw [List.chain'_cons] at hch
        simpa using hch
      have hrec := scrollConverge_first_repeat x tail (q :: pre3) q
        (pre3 ++ x :: x :: tail) hch2.2 rfl
      show scrollConverge prev (q :: (pre3 ++ x :: x :: tail)) = some _
      unfold scrollConverge
      rw [if_neg (fun h => hch2.1 h.symm), hrec]
      simp

/-- C9: both scroll loaders break out as soon as two consecutive convergence
samples are equal (`scrollHeight` going down, `scrollTop` going up), after
exactly one wheel iteration per sample taken; and when the pane's bounding
box cannot be obtained they return at once, with zero wheel events and no
exception escaping (the whole body sits in a catch-all handler). -/
theorem scroll_loader_converges_and_skips_missing_pane :
    (∀ (h0 : Int) (hs : List Int),
      XWhatsapp.search_pane_scroll_down none h0 hs = .noPane ∧
      wheelEvents (XWhatsapp.search_pane_scroll_down none h0 hs) = 0) ∧
    (∀ (b : BBox) (pre : List Int) (x : Int) (tail : List Int)
      (h0 : Int) (hs : List Int),
      List.Chain' (· ≠ ·) (pre ++ [x]) → h0 :: hs = pre ++ x :: x :: tail →
      XWhatsapp.search_pane_scroll_down (some b) h0 hs =
        .converged (pre.length + 1)) ∧
    (∀ (t0 : Int) (ts : List Int),
      SrcInit.chat_pane_scroll_up none t0 ts = .noPane ∧
      wheelEvents (SrcInit.chat_pane_scroll_up none t0 ts) = 0) ∧
    (∀ (b : BBox) (pre : List Int) (x : Int) (tail : List Int)
      (t0 : Int) (ts : List Int),
      List.Chain' (· ≠ ·) (pre ++ [x]) → t0 :: ts = pre ++ x :: x :: tail →
      SrcInit.chat_pane_scroll_up (some b) t0 ts =
        .converged (pre.length + 1)) := by
  refine ⟨fun h0 hs => ⟨rfl, rfl⟩, ?_, fun t0 ts => ⟨rfl, rfl⟩, ?_⟩
  · intro b pre x tail h0 hs hch heq
    unfold XWhatsapp.search_pane_scroll_down
    rw [scrollConverge_first_repeat x tail pre h0 hs hch heq]
  · intro b pre x tail t0 ts hch heq
    unfold SrcInit.chat_pane_scroll_up
    rw [scrollConverge_first_repeat x tail pre t0 ts hch heq]

/-- Witness for C9: pre-loop sample 10, then samples 12, 12 — convergence on
the second iteration; and the missing-pane cases. -/
theorem scroll_loader_witness :
    List.Chain' (· ≠ ·) ([10] ++ [(12 : Int)]) ∧
    ((10 : Int) :: [12, 12] = [10] ++ 12 :: 12 :: []) ∧
    XWhatsapp.search_pane_scroll_down (some ⟨0, 0, 2, 2⟩) 10 [12, 12] =
      .converged 2 ∧
    SrcInit.chat_pane_scroll_up (some ⟨0, 0, 2, 2⟩) 10 [12, 12] = .converged 2 ∧
    XWhatsapp.search_pane_scroll_down none 10 [12, 12] = .noPane ∧
    SrcInit.chat_pane_scroll_up none 10 [12, 12] = .noPane :=
  ⟨List.chain'_cons.mpr ⟨by decide, List.chain'_singleton _⟩, rfl,
   scroll_loader_converges_and_skips_missing_pane.2.1 ⟨0, 0, 2, 2⟩ [10] 12 []
     10 [12, 12] (List.chain'_cons.mpr ⟨by decide, List.chain'_singleton _⟩) rfl,
   scroll_loader_converges_and_skips_missing_pane.2.2.2 ⟨0, 0, 2, 2⟩ [10] 12 []
     10 [12, 12] (List.chain'_cons.mpr ⟨by decide, List.chain'_singleton _⟩) rfl,
   (scroll_loader_converges_and_skips_missing_pane.1 10 [12, 12]).1,
   (scroll_loader_converges_and_skips_missing_pane.2.2.1 10 [12, 12]).1⟩

/-! ## C1 -/

/-- C1 counterexample: the claim fails on both implementations of the
history extraction.  On a two-row panel whose DOM (chronological) order is
Alice at 10:00 then Bob at 11:00, `getChatHistory 2` returns Bob before
Alice — newest first, not chronological — and on a one-row panel
`extract_messages_from_chat` with `maxMessages = 0` returns one message,
not zero, because the Python slice `[-0:]` is the whole list. -/
theorem extract_history_counterexample :
    NewFile.getChatHistory (some [histRowOld, histRowNew]) 2 =
      .ok [⟨"Bob", "11:00", "second"⟩, ⟨"Alice", "10:00", "first"⟩] ∧
    ([⟨"Bob", "11:00", "second"⟩, ⟨"Alice", "10:00", "first"⟩] :
        List NewFile.FormattedChat) ≠
      [⟨"Alice", "10:00", "first"⟩, ⟨"Bob", "11:00", "second"⟩] ∧
    (XWhatsapp.extract_messages_from_chat 0 [outgoingRow]).length = 1 :=
  ⟨rfl, by decide, by decide⟩

/-- C1 (amended): for `maxMessages = n ≥ 1` the x_whatsapp client's
`extract_messages_from_chat` returns the suffix of the full extraction of
length `min n total` — the most recent `n` parsed messages, still in
chronological order; the newFile client's `getChatHistory`, by contrast,
formats the reversed row list, so (when at least `n` rows exist) it returns
the last `n` rows' messages in reverse-chronological order, newest first. -/
theorem extract_history_amended :
    (∀ (rows : List XWhatsapp.Row) (n : Nat), 1 ≤ n →
      ∃ pre, XWhatsapp.extract_messages rows =
          pre ++ XWhatsapp.extract_messages_from_chat n rows ∧
        (XWhatsapp.extract_messages_from_chat n rows).length =
          min n (XWhatsapp.extract_messages rows).length) ∧
    (∀ (rows : List NewFile.GCRow) (n : Nat), rows ≠ [] → n ≤ rows.length →
      NewFile.getChatHistory (some rows) n =
        .ok (((rows.drop (rows.length - n)).filterMap NewFile.gcFormat).reverse)) := by
  constructor
  · intro rows n hn
    unfold XWhatsapp.extract_messages_from_chat pySliceLast
    rw [if_neg (by omega)]
    refine ⟨(XWhatsapp.extract_messages rows).take
      ((XWhatsapp.extract_messages rows).length - n),
      (List.take_append_drop _ _).symm, ?_⟩
    rw [List.length_drop]
    omega
  · intro rows n hne hlen
    unfold NewFile.getChatHistory
    dsimp only
    rw [if_neg (by simp [hne]), if_pos hlen, List.take_reverse,
      List.filterMap_reverse]

/-- Witness for the amended C1: a one-row panel with `n = 1`, and the
two-row panel with `n = 2` for the newFile side. -/
theorem extract_history_amended_witness :
    (1 ≤ 1 ∧
      ∃ pre, XWhatsapp.extract_messages [outgoingRow] =
          pre ++ XWhatsapp.extract_messages_from_chat 1 [outgoingRow] ∧
        (XWhatsapp.extract_messages_from_chat 1 [outgoingRow]).length =
          min 1 (XWhatsapp.extract_messages [outgoingRow]).length) ∧
    (([histRowOld, histRowNew] : List NewFile.GCRow) ≠ [] ∧
      2 ≤ [histRowOld, histRowNew].length ∧
      NewFile.getChatHistory (some [histRowOld, histRowNew]) 2 =
        .ok ((([histRowOld, histRowNew].drop ([histRowOld, histRowNew].length - 2)).filterMap
          NewFile.gcFormat).reverse)) :=
  ⟨⟨le_refl 1, extract_history_amended.1 [outgoingRow] 1 (le_refl 1)⟩,
   ⟨by decide, by decide,
    extract_history_amended.2 [histRowOld, histRowNew] 2 (by decide) (by decide)⟩⟩

/-! ## Permutation and sortedness lemmas for the side-pane loop -/

/-- A successful `pysortEntries` permutes its input. -/
theorem pysortEntries_perm {l l2 : List XWhatsapp.SideEntry}
    (h : XWhatsapp.pysortEntries l = some l2) : l2.Perm l := by
  unfold XWhatsapp.pysortEntries at h
  split at h
  · cases h
    exact List.Perm.refl _
  · split at h
    · cases h
      exact List.perm_insertionSort _ _
    · split at h
      · cases h
        exact List.perm_insertionSort _ _
      · cases h

/-- Every element of the side-pane loop's output is either carried in from
the accumulator or is the entry built from some input item and its
successfully computed key. -/
theorem sidePaneGo_mem {e : XWhatsapp.SideEntry} :
    ∀ (chats : List XWhatsapp.SideChat) (acc : List XWhatsapp.SideEntry),
      e ∈ XWhatsapp.sidePaneGo chats acc →
      e ∈ acc ∨ ∃ c ∈ chats, ∃ k, XWhatsapp.keyOf c = .ok k ∧
        e = XWhatsapp.mkEntry c k
  | [], acc, h => .inl h
  | c :: rest, acc, h => by
    unfold XWhatsapp.sidePaneGo at h
    match hk : XWhatsapp.keyOf c with
    | .error e1 =>
      rw [hk] at h
      exact .inl h
    | .ok k =>
      rw [hk] at h
      dsimp only at h
      match hs : XWhatsapp.pysortEntries (acc ++ [XWhatsapp.mkEntry c k]) with
      | none =>
        rw [hs] at h
        rcases List.mem_append.mp h with hin | hone
        · exact .inl hin
        · exact .inr ⟨c, List.mem_cons_self c rest, k, hk,
            (List.mem_singleton.mp hone)⟩
      | some sorted =>
        rw [hs] at h
        rcases sidePaneGo_mem rest sorted h with hin | ⟨c2, hc2, k2, hk2, he⟩
        · rcases List.mem_append.mp ((pysortEntries_perm hs).mem_iff.mp hin) with
            hin2 | hone
          · exact .inl hin2
          · exact .inr ⟨c, List.mem_cons_self c rest, k, hk,
              List.mem_singleton.mp hone⟩
        · exact .inr ⟨c2, List.mem_cons_of_mem c hc2, k2, hk2, he⟩

namespace XWhatsapp

/-- The numeric key an item resolves to, when its transform is a
six-component matrix whose sixth component parses as a float. -/
def resolvedKey (c : SideChat) : Option PyFloat :=
  match keyOf c with
  | .ok (.num q) => some q
  | _ => none

end XWhatsapp

/-- A resolved key is exactly a successful numeric `keyOf`. -/
theorem keyOf_of_resolvedKey {c : XWhatsapp.SideChat} {q : PyFloat}
    (h : XWhatsapp.resolvedKey c = some q) :
    XWhatsapp.keyOf c = .ok (.num q) := by
  unfold XWhatsapp.resolvedKey at h
  match hk : XWhatsapp.keyOf c with
  | .ok (.num p) => rw [hk] at h; cases h; rfl
  | .ok (.str s) => rw [hk] at h; cases h
  | .ok .pynone => rw [hk] at h; cases h
  | .error e => rw [hk] at h; cases h

/-- On a list whose keys are all numeric, the per-append sort succeeds and
returns a sorted permutation (with keys still all numeric). -/
theorem pysortEntries_allNum {l : List XWhatsapp.SideEntry}
    (h : ∀ e ∈ l, e.translate_y.isNum = true) :
    ∃ l2, XWhatsapp.pysortEntries l = some l2 ∧ l2.Perm l ∧
      l2.Sorted XWhatsapp.entryLeQ ∧ ∀ e ∈ l2, e.translate_y.isNum = true := by
  by_cases hlen : l.length ≤ 1
  · refine ⟨l, ?_, List.Perm.refl _, ?_, h⟩
    · unfold XWhatsapp.pysortEntries
      rw [if_pos hlen]
    · match l, hlen with
      | [], _ => exact List.sorted_nil
      | [a], _ => exact List.sorted_singleton a
      | a :: b :: t, hlen => simp at hlen
  · have hall : l.all (fun e => e.translate_y.isNum) = true := List.all_eq_true.mpr h
    refine ⟨l.insertionSort XWhatsapp.entryLeQ, ?_, List.perm_insertionSort _ _,
      List.sorted_insertionSort XWhatsapp.entryLeQ l, ?_⟩
    · unfold XWhatsapp.pysortEntries
      rw [if_neg hlen, if_pos hall]
    · intro e he
      exact h e ((List.perm_insertionSort _ _).mem_iff.mp he)

/-- When every remaining item's transform resolves to a numeric key and the
accumulator is an all-numeric sorted list, the side-pane loop completes the
whole batch: its output is a sorted permutation of the accumulator plus one
entry per item. -/
theorem sidePaneGo_resolved :
    ∀ (chats : List XWhatsapp.SideChat) (acc : List XWhatsapp.SideEntry),
      (∀ c ∈ chats, (XWhatsapp.resolvedKey c).isSome = true) →
      (∀ e ∈ acc, e.translate_y.isNum = true) →
      acc.Sorted XWhatsapp.entryLeQ →
      (XWhatsapp.sidePaneGo chats acc).Perm
        (acc ++ chats.map (fun c =>
          XWhatsapp.mkEntry c (.num ((XWhatsapp.resolvedKey c).getD ⟨0, 0⟩)))) ∧
      (XWhatsapp.sidePaneGo chats acc).Sorted XWhatsapp.entryLeQ
  | [], acc, _, _, hsort => by
    constructor
    · simp [XWhatsapp.sidePaneGo]
    · exact hsort
  | c :: rest, acc, hres, hnum, hsort => by
    obtain ⟨q, hqq⟩ := Option.isSome_iff_exists.mp
      (hres c (List.mem_cons_self c rest))
    have hk : XWhatsapp.keyOf c = .ok (.num q) := keyOf_of_resolvedKey hqq
    have hnum2 : ∀ e ∈ acc ++ [XWhatsapp.mkEntry c (.num q)],
        e.translate_y.isNum = true := by
      intro e he
      rcases List.mem_append.mp he with h1 | h2
      · exact hnum e h1
      · rw [List.mem_singleton.mp h2]; rfl
    obtain ⟨l2, hsome, hperm, hsorted, hnum3⟩ := pysortEntries_allNum hnum2
    have hstep : XWhatsapp.sidePaneGo (c :: rest) acc =
        XWhatsapp.sidePaneGo rest l2 := by
      conv_lhs => unfold XWhatsapp.sidePaneGo
      rw [hk]
      dsimp only
      rw [hsome]
    have hrest := sidePaneGo_resolved rest l2
      (fun c2 hc2 => hres c2 (List.mem_cons_of_mem c hc2)) hnum3 hsorted
    rw [hstep]
    refine ⟨hrest.1.trans ?_, hrest.2⟩
    refine (hperm.append_right _).trans ?_
    rw [List.append_assoc]
    simp [hqq]

/-! ## C6 -/

/-- C6 counterexample: with items at transform "none", offset 144 and
offset 72 (in that DOM order), the batch aborts on the second item — the
sort mixes a string key with a float key, the resulting `TypeError` is
caught outside the loop, and the function returns only two of the three
summaries, with the unresolvable item first rather than last. -/
theorem listConversations_unresolvable_aborts :
    XWhatsapp.extract_chat_details_from_side_pane
        (some [badTransformChat, chat144, chat72]) =
      .ok [XWhatsapp.mkEntry badTransformChat (.str "none"),
           XWhatsapp.mkEntry chat144 (.num ⟨144, 0⟩)] ∧
    (XWhatsapp.sidePaneGo [badTransformChat, chat144, chat72] []).length ≠
      [badTransformChat, chat144, chat72].length :=
  ⟨rfl, by decide⟩

/-- C6 (amended): when every sidebar item's transform resolves to a numeric
offset, the synchronizer returns one summary per item, sorted ascending by
the recovered offset; an unresolvable transform instead aborts the batch
with a `TypeError` at the first cross-type key comparison (caught by the
handler), returning a truncated collection in which the unresolvable item
does not sort last. -/
theorem listConversations_sorted_when_all_resolve
    (chats : List XWhatsapp.SideChat)
    (h : ∀ c ∈ chats, (XWhatsapp.resolvedKey c).isSome = true) :
    ∃ l, XWhatsapp.extract_chat_details_from_side_pane (some chats) = .ok l ∧
      l.Perm (chats.map (fun c =>
        XWhatsapp.mkEntry c (.num ((XWhatsapp.resolvedKey c).getD ⟨0, 0⟩)))) ∧
      l.Sorted XWhatsapp.entryLeQ := by
  have h2 := sidePaneGo_resolved chats [] h (fun e he => absurd he
    (List.not_mem_nil e)) List.sorted_nil
  exact ⟨XWhatsapp.sidePaneGo chats [], rfl, by simpa using h2.1, h2.2⟩

/-- Witness for the amended C6: items at offsets 144 and 72 come back in
ascending order 72, 144. -/
theorem listConversations_sorted_witness :
    (∀ c ∈ [chat144, chat72], (XWhatsapp.resolvedKey c).isSome = true) ∧
    (∃ l, XWhatsapp.extract_chat_details_from_side_pane
        (some [chat144, chat72]) = .ok l ∧
      l.Perm ([chat144, chat72].map (fun c =>
        XWhatsapp.mkEntry c (.num ((XWhatsapp.resolvedKey c).getD ⟨0, 0⟩)))) ∧
      l.Sorted XWhatsapp.entryLeQ) :=
  ⟨by decide, listConversations_sorted_when_all_resolve [chat144, chat72]
    (by decide)⟩

/-! ## C7 -/

/-- C7 counterexample: an item whose unread label reads the non-numeric
text "abc" yields a summary whose unread field is the string "abc" itself —
not zero, and not a numeral at all — so the field is neither parsed when
numeric nor zeroed otherwise. -/
theorem unread_field_not_parsed :
    XWhatsapp.extract_chat_details_from_side_pane (some [unreadChat]) =
      .ok [XWhatsapp.mkEntry unreadChat (.num ⟨72, 0⟩)] ∧
    (XWhatsapp.mkEntry unreadChat (.num ⟨72, 0⟩)).unread_messages = "abc" ∧
    "abc" ≠ "0" ∧ "abc".data.all Char.isDigit = false :=
  ⟨rfl, rfl, by decide, by decide⟩

/-- C7 (amended): the unread field of every returned conversation summary is
a string carried over verbatim: the unread label's inner text when the
label exists, and the literal "0" when it is absent; no numeric parsing or
zeroing of non-numeric text takes place. -/
theorem unread_field_is_raw_text (chats : List XWhatsapp.SideChat)
    (l : List XWhatsapp.SideEntry) (e : XWhatsapp.SideEntry)
    (h1 : XWhatsapp.extract_chat_details_from_side_pane (some chats) = .ok l)
    (h2 : e ∈ l) :
    ∃ c ∈ chats, e.unread_messages = c.unreadLabel.getD "0" := by
  have hl : XWhatsapp.sidePaneGo chats [] = l := by
    have h3 : (Except.ok (XWhatsapp.sidePaneGo chats []) :
        Except PyExc (List XWhatsapp.SideEntry)) = .ok l := h1
    injection h3
  rcases sidePaneGo_mem chats [] (hl ▸ h2) with h | ⟨c, hc, k, _, he⟩
  · cases h
  · exact ⟨c, hc, by rw [he]; rfl⟩

/-- Witness for the amended C7 at the non-numeric fixture. -/
theorem unread_field_is_raw_text_witness :
    XWhatsapp.extract_chat_details_from_side_pane (some [unreadChat]) =
      .ok [XWhatsapp.mkEntry unreadChat (.num ⟨72, 0⟩)] ∧
    XWhatsapp.mkEntry unreadChat (.num ⟨72, 0⟩) ∈
      [XWhatsapp.mkEntry unreadChat (.num ⟨72, 0⟩)] ∧
    ∃ c ∈ [unreadChat],
      (XWhatsapp.mkEntry unreadChat (.num ⟨72, 0⟩)).unread_messages =
        c.unreadLabel.getD "0" :=
  ⟨rfl, List.mem_singleton.mpr rfl,
   unread_field_is_raw_text [unreadChat]
     [XWhatsapp.mkEntry unreadChat (.num ⟨72, 0⟩)]
     (XWhatsapp.mkEntry unreadChat (.num ⟨72, 0⟩)) rfl
     (List.mem_singleton.mpr rfl)⟩
